import Mathlib

/-!
Verification development for the HNL decay-volume core
(`src/Physics/BeamHNL/HNLDecayVolume.cxx`).

The C++ code is shallowly embedded over `ℝ`: doubles become real numbers,
member state read/written by a routine becomes explicit state passed in and
out, the random draw and the geometry oracle become explicit parameters.
Where the C++ relies on IEEE semantics of division by zero (a face whose
direction component is zero produces `inf`/`NaN` line parameters, making the
`<=` bounding-square comparisons evaluate to false), the embedding encodes
the observable outcome: such a face is skipped, expressed by the explicit
`p ≠ 0` conjunct in the face guard.
-/

noncomputable section

namespace HNLDecayVolume

/-- A 3-vector of doubles (`TVector3`). -/
structure Vec3 where
  x : ℝ
  y : ℝ
  z : ℝ

/-- The box half-extent parameters `fLx, fLy, fLz` used by
`SDVEntryAndExitPoints` (the face planes sit at `±fLx` etc.). -/
structure Box where
  Lx : ℝ
  Ly : ℝ
  Lz : ℝ

/-- The standard-decay-volume box after `MakeSDV` + `EnforceUnits("mm",...)`:
`fLx = fLy = fLz = 1000` (mm), as pinned by the `assert` at the top of
`SDVEntryAndExitPoints`. -/
def sdvBox : Box := ⟨1000, 1000, 1000⟩

/-- The mutable members written by the face cases of `SDVEntryAndExitPoints`:
entry candidate `fEx,fEy,fEz`, exit candidate `fXx,fXy,fXz`, and the
`pointsOnX/Y/Z` flags.  The function may read stale values of `fE`/`fX`
left over from an earlier call, so the prior state is an explicit input. -/
structure SDVState where
  fE : Vec3
  fX : Vec3
  ptsX : Bool
  ptsY : Bool
  ptsZ : Bool

/-- Momentum normalization as done at the top of `SDVEntryAndExitPoints`
(`fP = sqrt(fP2); fPx *= 1.0/fP; ...`). -/
def normalizeVec (m : Vec3) : Vec3 :=
  let fP2 := m.x * m.x + m.y * m.y + m.z * m.z
  let fP := Real.sqrt fP2
  ⟨m.x * (1 / fP), m.y * (1 / fP), m.z * (1 / fP)⟩

/-- Line parameter for the face `x = +Lx` (`txP`). -/
def tXP (b : Box) (S p : Vec3) : ℝ := (b.Lx - S.x) / p.x

/-- Line parameter for the face `x = -Lx` (`txM`). -/
def tXM (b : Box) (S p : Vec3) : ℝ := (-b.Lx - S.x) / p.x

/-- Line parameter for the face `y = +Ly` (`tyP`). -/
def tYP (b : Box) (S p : Vec3) : ℝ := (b.Ly - S.y) / p.y

/-- Line parameter for the face `y = -Ly` (`tyM`). -/
def tYM (b : Box) (S p : Vec3) : ℝ := (-b.Ly - S.y) / p.y

/-- Line parameter for the face `z = +Lz` (`tzP`). -/
def tZP (b : Box) (S p : Vec3) : ℝ := (b.Lz - S.z) / p.z

/-- Line parameter for the face `z = -Lz` (`tzM`). -/
def tZM (b : Box) (S p : Vec3) : ℝ := (-b.Lz - S.z) / p.z

/-- Bounding-square test for face `x = +Lx`: the projected candidate point
`(q1t, q2t)` lies within the face's extent.  The `p.x ≠ 0` conjunct encodes
the IEEE behaviour of the source: with `fPx = 0` the line parameter is
`±inf`/`NaN`, so both `<=` comparisons are false and the face is skipped. -/
def withinXP (b : Box) (S p : Vec3) : Prop :=
  p.x ≠ 0 ∧ |S.y + tXP b S p * p.y| ≤ b.Ly ∧ |S.z + tXP b S p * p.z| ≤ b.Lz

/-- Bounding-square test for face `x = -Lx`. -/
def withinXM (b : Box) (S p : Vec3) : Prop :=
  p.x ≠ 0 ∧ |S.y + tXM b S p * p.y| ≤ b.Ly ∧ |S.z + tXM b S p * p.z| ≤ b.Lz

/-- Bounding-square test for face `y = +Ly`. -/
def withinYP (b : Box) (S p : Vec3) : Prop :=
  p.y ≠ 0 ∧ |S.z + tYP b S p * p.z| ≤ b.Lz ∧ |S.x + tYP b S p * p.x| ≤ b.Lx

/-- Bounding-square test for face `y = -Ly`. -/
def withinYM (b : Box) (S p : Vec3) : Prop :=
  p.y ≠ 0 ∧ |S.z + tYM b S p * p.z| ≤ b.Lz ∧ |S.x + tYM b S p * p.x| ≤ b.Lx

/-- Bounding-square test for face `z = +Lz`. -/
def withinZP (b : Box) (S p : Vec3) : Prop :=
  p.z ≠ 0 ∧ |S.x + tZP b S p * p.x| ≤ b.Lx ∧ |S.y + tZP b S p * p.y| ≤ b.Ly

/-- Bounding-square test for face `z = -Lz`. -/
def withinZM (b : Box) (S p : Vec3) : Prop :=
  p.z ≠ 0 ∧ |S.x + tZM b S p * p.x| ≤ b.Lx ∧ |S.y + tZM b S p * p.y| ≤ b.Ly

instance (b : Box) (S p : Vec3) : Decidable (withinXP b S p) := by
  unfold withinXP; infer_instance

instance (b : Box) (S p : Vec3) : Decidable (withinXM b S p) := by
  unfold withinXM; infer_instance

instance (b : Box) (S p : Vec3) : Decidable (withinYP b S p) := by
  unfold withinYP; infer_instance

instance (b : Box) (S p : Vec3) : Decidable (withinYM b S p) := by
  unfold withinYM; infer_instance

instance (b : Box) (S p : Vec3) : Decidable (withinZP b S p) := by
  unfold withinZP; infer_instance

instance (b : Box) (S p : Vec3) : Decidable (withinZM b S p) := by
  unfold withinZM; infer_instance

/-- The `x = +fLx` case of `SDVEntryAndExitPoints`.  `none` models the early
`return false` taken on the tangent case (`fSx * fPx == 0` while within the
bounding square); otherwise the updated member state is returned. -/
def faceXP (b : Box) (S p : Vec3) (st : SDVState) : Option SDVState :=
  let q1 := S.y + tXP b S p * p.y
  let q2 := S.z + tXP b S p * p.z
  if withinXP b S p then
    if S.x * p.x < 0 then some { st with fE := ⟨b.Lx, q1, q2⟩, ptsX := true }
    else if 0 < S.x * p.x then some { st with fX := ⟨b.Lx, q1, q2⟩, ptsX := true }
    else none
  else some st

/-- The `x = -fLx` case of `SDVEntryAndExitPoints`. -/
def faceXM (b : Box) (S p : Vec3) (st : SDVState) : Option SDVState :=
  let q1 := S.y + tXM b S p * p.y
  let q2 := S.z + tXM b S p * p.z
  if withinXM b S p then
    if S.x * p.x < 0 then some { st with fE := ⟨-b.Lx, q1, q2⟩, ptsX := true }
    else if 0 < S.x * p.x then some { st with fX := ⟨-b.Lx, q1, q2⟩, ptsX := true }
    else none
  else some st

/-- The `y = +fLy` case of `SDVEntryAndExitPoints`. -/
def faceYP (b : Box) (S p : Vec3) (st : SDVState) : Option SDVState :=
  let q1 := S.z + tYP b S p * p.z
  let q2 := S.x + tYP b S p * p.x
  if withinYP b S p then
    if S.y * p.y < 0 then some { st with fE := ⟨q2, b.Ly, q1⟩, ptsY := true }
    else if 0 < S.y * p.y then some { st with fX := ⟨q2, b.Ly, q1⟩, ptsY := true }
    else none
  else some st

/-- The `y = -fLy` case of `SDVEntryAndExitPoints`. -/
def faceYM (b : Box) (S p : Vec3) (st : SDVState) : Option SDVState :=
  let q1 := S.z + tYM b S p * p.z
  let q2 := S.x + tYM b S p * p.x
  if withinYM b S p then
    if S.y * p.y < 0 then some { st with fE := ⟨q2, -b.Ly, q1⟩, ptsY := true }
    else if 0 < S.y * p.y then some { st with fX := ⟨q2, -b.Ly, q1⟩, ptsY := true }
    else none
  else some st

/-- The `z = +fLz` case of `SDVEntryAndExitPoints`. -/
def faceZP (b : Box) (S p : Vec3) (st : SDVState) : Option SDVState :=
  let q1 := S.x + tZP b S p * p.x
  let q2 := S.y + tZP b S p * p.y
  if withinZP b S p then
    if S.z * p.z < 0 then some { st with fE := ⟨q1, q2, b.Lz⟩, ptsZ := true }
    else if 0 < S.z * p.z then some { st with fX := ⟨q1, q2, b.Lz⟩, ptsZ := true }
    else none
  else some st

/-- The `z = -fLz` case of `SDVEntryAndExitPoints`. -/
def faceZM (b : Box) (S p : Vec3) (st : SDVState) : Option SDVState :=
  let q1 := S.x + tZM b S p * p.x
  let q2 := S.y + tZM b S p * p.y
  if withinZM b S p then
    if S.z * p.z < 0 then some { st with fE := ⟨q1, q2, -b.Lz⟩, ptsZ := true }
    else if 0 < S.z * p.z then some { st with fX := ⟨q1, q2, -b.Lz⟩, ptsZ := true }
    else none
  else some st

/-- The six face cases of `SDVEntryAndExitPoints`, run in source order;
`none` models an early `return false`. -/
def sdvCore (b : Box) (S p : Vec3) (st : SDVState) : Option SDVState :=
  (faceXP b S p st).bind fun st1 =>
  (faceXM b S p st1).bind fun st2 =>
  (faceYP b S p st2).bind fun st3 =>
  (faceYM b S p st3).bind fun st4 =>
  (faceZP b S p st4).bind fun st5 =>
  faceZM b S p st5

/-- Result of `SDVEntryAndExitPoints`: the boolean return value and the
out-parameters `entryPoint` / `exitPoint`.  On a `false` return the caller's
vectors are untouched; the result then carries the prior member state. -/
structure SDVResult where
  found : Bool
  entryP : Vec3
  exitP : Vec3

/-- Embeds `HNLDecayVolume::SDVEntryAndExitPoints`: normalize the momentum, run the
six face cases, then — if any `pointsOn` flag fired — publish the member
entry/exit candidates into the out-parameters and return `true`. -/
def SDVEntryAndExitPoints (startPoint momentum : Vec3) (st0 : SDVState) : SDVResult :=
  let p := normalizeVec momentum
  match sdvCore sdvBox startPoint p st0 with
  | none => ⟨false, st0.fE, st0.fX⟩
  | some st =>
    if st.ptsX || st.ptsY || st.ptsZ then ⟨true, st.fE, st.fX⟩
    else ⟨false, st.fE, st.fX⟩

lemma faceXP_tangent {b : Box} {S p : Vec3} (hw : withinXP b S p)
    (h0 : S.x * p.x = 0) (st : SDVState) : faceXP b S p st = none := by
  unfold faceXP
  rw [if_pos hw, h0, if_neg (lt_irrefl 0), if_neg (lt_irrefl 0)]

lemma faceXM_tangent {b : Box} {S p : Vec3} (hw : withinXM b S p)
    (h0 : S.x * p.x = 0) (st : SDVState) : faceXM b S p st = none := by
  unfold faceXM
  rw [if_pos hw, h0, if_neg (lt_irrefl 0), if_neg (lt_irrefl 0)]

lemma faceYP_tangent {b : Box} {S p : Vec3} (hw : withinYP b S p)
    (h0 : S.y * p.y = 0) (st : SDVState) : faceYP b S p st = none := by
  unfold faceYP
  rw [if_pos hw, h0, if_neg (lt_irrefl 0), if_neg (lt_irrefl 0)]

lemma faceYM_tangent {b : Box} {S p : Vec3} (hw : withinYM b S p)
    (h0 : S.y * p.y = 0) (st : SDVState) : faceYM b S p st = none := by
  unfold faceYM
  rw [if_pos hw, h0, if_neg (lt_irrefl 0), if_neg (lt_irrefl 0)]

lemma faceZP_tangent {b : Box} {S p : Vec3} (hw : withinZP b S p)
    (h0 : S.z * p.z = 0) (st : SDVState) : faceZP b S p st = none := by
  unfold faceZP
  rw [if_pos hw, h0, if_neg (lt_irrefl 0), if_neg (lt_irrefl 0)]

lemma faceZM_tangent {b : Box} {S p : Vec3} (hw : withinZM b S p)
    (h0 : S.z * p.z = 0) (st : SDVState) : faceZM b S p st = none := by
  unfold faceZM
  rw [if_pos hw, h0, if_neg (lt_irrefl 0), if_neg (lt_irrefl 0)]

/-- If any face case hits its tangent branch, the whole chain of face cases
returns early with `false`. -/
lemma sdvCore_none_of_tangent {b : Box} {S p : Vec3}
    (h : (withinXP b S p ∧ S.x * p.x = 0) ∨ (withinXM b S p ∧ S.x * p.x = 0) ∨
         (withinYP b S p ∧ S.y * p.y = 0) ∨ (withinYM b S p ∧ S.y * p.y = 0) ∨
         (withinZP b S p ∧ S.z * p.z = 0) ∨ (withinZM b S p ∧ S.z * p.z = 0))
    (st : SDVState) : sdvCore b S p st = none := by
  unfold sdvCore
  rcases h with ⟨hw, h0⟩ | ⟨hw, h0⟩ | ⟨hw, h0⟩ | ⟨hw, h0⟩ | ⟨hw, h0⟩ | ⟨hw, h0⟩
  · rw [faceXP_tangent hw h0]; rfl
  · cases h1 : faceXP b S p st with
    | none => rfl
    | some st1 => rw [Option.some_bind, faceXM_tangent hw h0]; rfl
  · cases h1 : faceXP b S p st with
    | none => rfl
    | some st1 =>
      rw [Option.some_bind]
      cases h2 : faceXM b S p st1 with
      | none => rfl
      | some st2 => rw [Option.some_bind, faceYP_tangent hw h0]; rfl
  · cases h1 : faceXP b S p st with
    | none => rfl
    | some st1 =>
      rw [Option.some_bind]
      cases h2 : faceXM b S p st1 with
      | none => rfl
      | some st2 =>
        rw [Option.some_bind]
        cases h3 : faceYP b S p st2 with
        | none => rfl
        | some st3 => rw [Option.some_bind, faceYM_tangent hw h0]; rfl
  · cases h1 : faceXP b S p st with
    | none => rfl
    | some st1 =>
      rw [Option.some_bind]
      cases h2 : faceXM b S p st1 with
      | none => rfl
      | some st2 =>
        rw [Option.some_bind]
        cases h3 : faceYP b S p st2 with
        | none => rfl
        | some st3 =>
          rw [Option.some_bind]
          cases h4 : faceYM b S p st3 with
          | none => rfl
          | some st4 => rw [Option.some_bind, faceZP_tangent hw h0]; rfl
  · cases h1 : faceXP b S p st with
    | none => rfl
    | some st1 =>
      rw [Option.some_bind]
      cases h2 : faceXM b S p st1 with
      | none => rfl
      | some st2 =>
        rw [Option.some_bind]
        cases h3 : faceYP b S p st2 with
        | none => rfl
        | some st3 =>
          rw [Option.some_bind]
          cases h4 : faceYM b S p st3 with
          | none => rfl
          | some st4 =>
            rw [Option.some_bind]
            cases h5 : faceZP b S p st4 with
            | none => rfl
            | some st5 => rw [Option.some_bind, faceZM_tangent hw h0]

/-- C7: for every trajectory for which some face's classification dot product
(start coordinate times normalized direction component on the face's axis) is
exactly zero while the projected candidate point lies within that face's
bounding square, `SDVEntryAndExitPoints` classifies the tangent case as a
miss and returns `found = false`. -/
theorem sdv_tangent_policy_found_false (S M : Vec3) (st0 : SDVState)
    (h : (withinXP sdvBox S (normalizeVec M) ∧ S.x * (normalizeVec M).x = 0) ∨
         (withinXM sdvBox S (normalizeVec M) ∧ S.x * (normalizeVec M).x = 0) ∨
         (withinYP sdvBox S (normalizeVec M) ∧ S.y * (normalizeVec M).y = 0) ∨
         (withinYM sdvBox S (normalizeVec M) ∧ S.y * (normalizeVec M).y = 0) ∨
         (withinZP sdvBox S (normalizeVec M) ∧ S.z * (normalizeVec M).z = 0) ∨
         (withinZM sdvBox S (normalizeVec M) ∧ S.z * (normalizeVec M).z = 0)) :
    (SDVEntryAndExitPoints S M st0).found = false := by
  have hc := sdvCore_none_of_tangent h st0
  simp only [SDVEntryAndExitPoints, hc]

/-- The unit `+x` momentum normalizes to itself. -/
lemma normalizeVec_unitX : normalizeVec ⟨1, 0, 0⟩ = ⟨1, 0, 0⟩ := by
  unfold normalizeVec
  norm_num

/-- Witness for the tangent policy: a trajectory starting at the origin along
`+x` satisfies the tangent condition on face `x = +1000` (dot product
`0 * 1 = 0`, projected point `(0,0)` inside the face), and the intersector
reports a miss. -/
theorem sdv_tangent_policy_found_false_witness :
    ((withinXP sdvBox ⟨0, 0, 0⟩ (normalizeVec ⟨1, 0, 0⟩) ∧
      (0 : ℝ) * (normalizeVec ⟨1, 0, 0⟩).x = 0) ∧
     (SDVEntryAndExitPoints ⟨0, 0, 0⟩ ⟨1, 0, 0⟩
        ⟨⟨0, 0, 0⟩, ⟨0, 0, 0⟩, false, false, false⟩).found = false) := by
  have hw : withinXP sdvBox ⟨0, 0, 0⟩ (normalizeVec ⟨1, 0, 0⟩) := by
    rw [normalizeVec_unitX]
    unfold withinXP tXP sdvBox
    norm_num
  refine ⟨⟨hw, by rw [normalizeVec_unitX]; norm_num⟩, ?_⟩
  exact sdv_tangent_policy_found_false ⟨0, 0, 0⟩ ⟨1, 0, 0⟩ _
    (Or.inl ⟨hw, by rw [normalizeVec_unitX]; norm_num⟩)

lemma faceYP_skip {b : Box} {S p : Vec3} (h : p.y = 0) (st : SDVState) :
    faceYP b S p st = some st := by
  unfold faceYP
  rw [if_neg (by simp [withinYP, h])]

lemma faceYM_skip {b : Box} {S p : Vec3} (h : p.y = 0) (st : SDVState) :
    faceYM b S p st = some st := by
  unfold faceYM
  rw [if_neg (by simp [withinYM, h])]

lemma faceZP_skip {b : Box} {S p : Vec3} (h : p.z = 0) (st : SDVState) :
    faceZP b S p st = some st := by
  unfold faceZP
  rw [if_neg (by simp [withinZP, h])]

lemma faceZM_skip {b : Box} {S p : Vec3} (h : p.z = 0) (st : SDVState) :
    faceZM b S p st = some st := by
  unfold faceZM
  rw [if_neg (by simp [withinZM, h])]

/-- C1 (scenario): for the standard decay volume and the through-going
trajectory starting at `(-2000, 0, 0)` mm with momentum `(1, 0, 0)`, the box
intersector returns `found = true` but classifies *both* crossed `x` faces as
entries (the classification `fSx * fPx < 0` depends only on the start point),
so the entry candidate is overwritten with `(-1000, 0, 0)` — the face plane at
`-1` m, not the `(-500, 0, 0)` of a 1 m-sided cube — and the exit member is
never written: the reported exit point is whatever stale value the state held
before the call.  This refutes the claim that entry and exit are distinct
points on the bounding planes with entry `(-0.5, 0, 0)` m and exit
`(0.5, 0, 0)` m. -/
theorem sdv_scenarioA_eval (st0 : SDVState) :
    (SDVEntryAndExitPoints ⟨-2000, 0, 0⟩ ⟨1, 0, 0⟩ st0).found = true ∧
    (SDVEntryAndExitPoints ⟨-2000, 0, 0⟩ ⟨1, 0, 0⟩ st0).entryP = ⟨-1000, 0, 0⟩ ∧
    (SDVEntryAndExitPoints ⟨-2000, 0, 0⟩ ⟨1, 0, 0⟩ st0).exitP = st0.fX ∧
    (⟨-1000, 0, 0⟩ : Vec3) ≠ ⟨-500, 0, 0⟩ := by
  have h1 : faceXP sdvBox ⟨-2000, 0, 0⟩ ⟨1, 0, 0⟩ st0
      = some { st0 with fE := ⟨1000, 0, 0⟩, ptsX := true } := by
    norm_num [faceXP, withinXP, tXP, sdvBox]
  have h2 : faceXM sdvBox ⟨-2000, 0, 0⟩ ⟨1, 0, 0⟩
      { st0 with fE := ⟨1000, 0, 0⟩, ptsX := true }
      = some { st0 with fE := ⟨-1000, 0, 0⟩, ptsX := true } := by
    norm_num [faceXM, withinXM, tXM, sdvBox]
  have hcore : sdvCore sdvBox ⟨-2000, 0, 0⟩ ⟨1, 0, 0⟩ st0
      = some { st0 with fE := ⟨-1000, 0, 0⟩, ptsX := true } := by
    unfold sdvCore
    rw [h1, Option.some_bind, h2, Option.some_bind, faceYP_skip rfl _,
        Option.some_bind, faceYM_skip rfl _, Option.some_bind, faceZP_skip rfl _,
        Option.some_bind, faceZM_skip rfl _]
  have hmain : SDVEntryAndExitPoints ⟨-2000, 0, 0⟩ ⟨1, 0, 0⟩ st0
      = ⟨true, ⟨-1000, 0, 0⟩, st0.fX⟩ := by
    simp [SDVEntryAndExitPoints, normalizeVec_unitX, hcore]
  refine ⟨by rw [hmain], by rw [hmain], by rw [hmain], ?_⟩
  simp only [ne_eq, Vec3.mk.injEq]
  norm_num

/-- Plane rotation about the x axis, as written inline in
`ApplyUserRotation` (`vy = y*cos - z*sin; vz = y*sin + z*cos`). -/
def rotX (θ : ℝ) (v : Vec3) : Vec3 :=
  ⟨v.x, v.y * Real.cos θ - v.z * Real.sin θ, v.y * Real.sin θ + v.z * Real.cos θ⟩

/-- Plane rotation about the z axis, as written inline in
`ApplyUserRotation` (`vx = x*cos - y*sin; vy = x*sin + y*cos`). -/
def rotZ (θ : ℝ) (v : Vec3) : Vec3 :=
  ⟨v.x * Real.cos θ - v.y * Real.sin θ, v.x * Real.sin θ + v.y * Real.cos θ, v.z⟩

/-- `HNLDecayVolume::ApplyUserRotation` (4-argument overload): translate to
the rotation origin, apply `Ax2` about x, then `Az` about z, then `Ax1`
about x, translate back.  Forward uses `(Ax1, Az, Ax2) = (rot.1, rot.2.1,
rot.2.2)`; `doBackwards` negates all three angles but keeps the same
application order. -/
def ApplyUserRotation (vec oriVec : Vec3) (rotVec : ℝ × ℝ × ℝ)
    (doBackwards : Bool) : Vec3 :=
  let Ax2 := if doBackwards then -rotVec.2.2 else rotVec.2.2
  let Az := if doBackwards then -rotVec.2.1 else rotVec.2.1
  let Ax1 := if doBackwards then -rotVec.1 else rotVec.1
  let v0 : Vec3 := ⟨vec.x - oriVec.x, vec.y - oriVec.y, vec.z - oriVec.z⟩
  let v3 := rotX Ax1 (rotZ Az (rotX Ax2 v0))
  ⟨v3.x + oriVec.x, v3.y + oriVec.y, v3.z + oriVec.z⟩

lemma rotX_neg_cancel (θ : ℝ) (v : Vec3) : rotX (-θ) (rotX θ v) = v := by
  unfold rotX
  cases v with
  | mk x y z =>
    simp only [Real.cos_neg, Real.sin_neg, Vec3.mk.injEq]
    refine ⟨trivial, ?_, ?_⟩
    · linear_combination y * (Real.sin_sq_add_cos_sq θ)
    · linear_combination z * (Real.sin_sq_add_cos_sq θ)

lemma rotZ_neg_cancel (θ : ℝ) (v : Vec3) : rotZ (-θ) (rotZ θ v) = v := by
  unfold rotZ
  cases v with
  | mk x y z =>
    simp only [Real.cos_neg, Real.sin_neg, Vec3.mk.injEq]
    refine ⟨?_, ?_, trivial⟩
    · linear_combination x * (Real.sin_sq_add_cos_sq θ)
    · linear_combination y * (Real.sin_sq_add_cos_sq θ)

/-- C3 (counterexample): with angles `(π/2, π/2, 0)` (all inside `[-π, π]`)
and the origin at zero, applying the forward rotation and then the
`doBackwards` rotation with the *same* angle triple maps `(1,0,0)` to
`(0,1,0)`, not back to `(1,0,0)`: the deviation in the x component is `1`,
far beyond any floating-point tolerance.  Negating all three angles while
keeping the application order only inverts the composition when the first
and third Euler angles agree. -/
theorem applyUserRotation_roundtrip_counterexample :
    ApplyUserRotation
        (ApplyUserRotation ⟨1, 0, 0⟩ ⟨0, 0, 0⟩ (Real.pi / 2, Real.pi / 2, 0) false)
        ⟨0, 0, 0⟩ (Real.pi / 2, Real.pi / 2, 0) true = ⟨0, 1, 0⟩ ∧
    (⟨0, 1, 0⟩ : Vec3) ≠ ⟨1, 0, 0⟩ := by
  constructor
  · unfold ApplyUserRotation rotX rotZ
    norm_num [Real.cos_pi_div_two, Real.sin_pi_div_two]
  · simp only [ne_eq, Vec3.mk.injEq]
    norm_num

/-- C3 (amended): the `doBackwards` composition is the exact algebraic
inverse of the forward composition taken with the *reversed* angle triple;
hence the round-trip with one and the same triple `(a, b, c)` is the
identity precisely in the special case `a = c` (and in particular the
original claim holds for triples whose first and third angles agree). -/
theorem applyUserRotation_reversed_roundtrip (p o : Vec3) (a b c : ℝ) :
    ApplyUserRotation (ApplyUserRotation p o (a, b, c) false) o (c, b, a) true
      = p := by
  unfold ApplyUserRotation
  simp only [Bool.false_eq_true, if_false, if_true]
  have hsub : ∀ u : Vec3,
      (⟨u.x + o.x - o.x, u.y + o.y - o.y, u.z + o.z - o.z⟩ : Vec3) = u := by
    intro u; cases u; simp
  rw [hsub]
  rw [rotX_neg_cancel, rotZ_neg_cancel, rotX_neg_cancel]
  cases p; cases o
  simp

/-- Embeds `HNLDecayVolume::CalcTravelLength`.  `c` is the member
`kNewSpeedOfLight` (in active length/time units) and `ranthrow` the uniform
draw obtained from `RandomGen`. -/
def CalcTravelLength (betaMag CoMLifetime maxLength c ranthrow : ℝ) : ℝ :=
  let maxLabTime := maxLength / (betaMag * c)
  let gamma := Real.sqrt (1 / (1 - betaMag * betaMag))
  let maxRestTime := maxLabTime / gamma
  let PExit := Real.exp (-maxRestTime / CoMLifetime)
  let S0 := (1 - PExit) * ranthrow + PExit
  let rest_time := CoMLifetime * Real.log (1 / S0)
  let elapsed_time := rest_time * gamma
  elapsed_time * betaMag * c

/-- The survival probability `survProb = exp(-timeBeforeDet / fCoMLifetime)` from
`ProcessEventRecord`. -/
def survProb (timeBeforeDet CoMLifetime : ℝ) : ℝ :=
  Real.exp (-timeBeforeDet / CoMLifetime)

/-- The decay probability `decayProb = 1 - exp(-timeInsideDet / fCoMLifetime)` from
`ProcessEventRecord`. -/
def decayProb (timeInsideDet CoMLifetime : ℝ) : ℝ :=
  1 - Real.exp (-timeInsideDet / CoMLifetime)

/-- The combined geometric reweighting factor
`1/survProb * 1/decayProb`. -/
def geomWeight (timeBeforeDet timeInsideDet CoMLifetime : ℝ) : ℝ :=
  (1 / survProb timeBeforeDet CoMLifetime) *
  (1 / decayProb timeInsideDet CoMLifetime)

/-- The weight bookkeeping of `ProcessEventRecord`: the local `weight`
starts at `1.0`, is multiplied by `1/survProb` then by `1/decayProb`, and is
finally merged multiplicatively into the event weight
(`SetWeight(Weight() * weight)`). -/
def applyGeomWeight (evWeight timeBeforeDet timeInsideDet CoMLifetime : ℝ) : ℝ :=
  let weight := (1 : ℝ)
  let weight := weight * (1 / survProb timeBeforeDet CoMLifetime)
  let weight := weight * (1 / decayProb timeInsideDet CoMLifetime)
  evWeight * weight

/-- The pre-detector flight distance computed at lines 110-112 of
`ProcessEventRecord` — note the third addend squares
`entryPoint.Y() - startPoint.Z()`, mixing the Y and Z coordinates. -/
def distanceBeforeDet (entryPoint startPoint : Vec3) : ℝ :=
  Real.sqrt ((entryPoint.x - startPoint.x) ^ 2 +
             (entryPoint.y - startPoint.y) ^ 2 +
             (entryPoint.y - startPoint.z) ^ 2)

/-- Modelled from the spec: the intended, dimensionally consistent Euclidean
distance `sqrt((Ex-Sx)² + (Ey-Sy)² + (Ez-Sz)²)` between the production start
point and the detector entry point, which the spec states as the contract
for the pre-detector flight distance. -/
def specEuclideanDistance (entryPoint startPoint : Vec3) : ℝ :=
  Real.sqrt ((entryPoint.x - startPoint.x) ^ 2 +
             (entryPoint.y - startPoint.y) ^ 2 +
             (entryPoint.z - startPoint.z) ^ 2)

/-- Embeds `HNLDecayVolume::GetDecayPoint`: normalize the momentum and advance
`travelLength` along it from the entry point. -/
def GetDecayPoint (travelLength : ℝ) (entryPoint momentum : Vec3) : Vec3 :=
  let p2 := momentum.x * momentum.x + momentum.y * momentum.y +
            momentum.z * momentum.z
  let p := Real.sqrt p2
  let px := momentum.x * (1 / p)
  let py := momentum.y * (1 / p)
  let pz := momentum.z * (1 / p)
  ⟨entryPoint.x + travelLength * px,
   entryPoint.y + travelLength * py,
   entryPoint.z + travelLength * pz⟩

/-- The Euclidean norm of a 3-vector (`TVector3::Mag`). -/
def vecNorm (v : Vec3) : ℝ := Real.sqrt (v.x * v.x + v.y * v.y + v.z * v.z)

/-- C2: at entry point `(1,2,0)` and start point `(0,0,3)` the pre-detector
distance computed by the code is `√6`, while the Euclidean distance the
claim states is `√14`; the two differ, because the code's third addend
squares `Ey - Sz` instead of `Ez - Sz`. -/
theorem distanceBeforeDet_not_euclidean :
    distanceBeforeDet ⟨1, 2, 0⟩ ⟨0, 0, 3⟩ = Real.sqrt 6 ∧
    specEuclideanDistance ⟨1, 2, 0⟩ ⟨0, 0, 3⟩ = Real.sqrt 14 ∧
    distanceBeforeDet ⟨1, 2, 0⟩ ⟨0, 0, 3⟩ ≠
      specEuclideanDistance ⟨1, 2, 0⟩ ⟨0, 0, 3⟩ := by
  have h6 : distanceBeforeDet ⟨1, 2, 0⟩ ⟨0, 0, 3⟩ = Real.sqrt 6 := by
    unfold distanceBeforeDet
    norm_num
  have h14 : specEuclideanDistance ⟨1, 2, 0⟩ ⟨0, 0, 3⟩ = Real.sqrt 14 := by
    unfold specEuclideanDistance
    norm_num
  refine ⟨h6, h14, ?_⟩
  rw [h6, h14]
  exact ne_of_lt (Real.sqrt_lt_sqrt (by norm_num) (by norm_num))

/-- C10: `GetDecayPoint` normalizes the momentum internally, so the decay
point is `entry + travelLength · (m / ‖m‖)`, and the result is invariant
under rescaling the momentum by any positive factor `k`. -/
theorem getDecayPoint_normalizes_and_scale_invariant (l k : ℝ) (e m : Vec3)
    (hm : 0 < m.x * m.x + m.y * m.y + m.z * m.z) (hk : 0 < k) :
    GetDecayPoint l e m =
      ⟨e.x + l * (m.x / vecNorm m), e.y + l * (m.y / vecNorm m),
       e.z + l * (m.z / vecNorm m)⟩ ∧
    GetDecayPoint l e ⟨k * m.x, k * m.y, k * m.z⟩ = GetDecayPoint l e m := by
  have hp : 0 < Real.sqrt (m.x * m.x + m.y * m.y + m.z * m.z) :=
    Real.sqrt_pos.mpr hm
  constructor
  · unfold GetDecayPoint vecNorm
    simp only [Vec3.mk.injEq]
    refine ⟨?_, ?_, ?_⟩ <;> ring
  · unfold GetDecayPoint
    have hsq : k * m.x * (k * m.x) + k * m.y * (k * m.y) + k * m.z * (k * m.z)
        = k ^ 2 * (m.x * m.x + m.y * m.y + m.z * m.z) := by ring
    have hsqrt : Real.sqrt (k * m.x * (k * m.x) + k * m.y * (k * m.y) +
        k * m.z * (k * m.z)) =
        k * Real.sqrt (m.x * m.x + m.y * m.y + m.z * m.z) := by
      rw [hsq, Real.sqrt_mul (by positivity), Real.sqrt_sq hk.le]
    simp only [hsqrt, Vec3.mk.injEq]
    have hk0 : k ≠ 0 := ne_of_gt hk
    have hp0 : Real.sqrt (m.x * m.x + m.y * m.y + m.z * m.z) ≠ 0 :=
      ne_of_gt hp
    refine ⟨?_, ?_, ?_⟩ <;> · field_simp; ring

/-- Witness for C10 at `l = 1`, `e = 0`, `m = (3,4,0)`, `k = 2`. -/
theorem getDecayPoint_witness :
    (0 : ℝ) < 3 * 3 + 4 * 4 + 0 * 0 ∧ (0 : ℝ) < 2 ∧
    (GetDecayPoint 1 ⟨0, 0, 0⟩ (⟨3, 4, 0⟩ : Vec3) =
      ⟨0 + 1 * ((3 : ℝ) / vecNorm ⟨3, 4, 0⟩), 0 + 1 * (4 / vecNorm ⟨3, 4, 0⟩),
       0 + 1 * (0 / vecNorm ⟨3, 4, 0⟩)⟩ ∧
     GetDecayPoint 1 ⟨0, 0, 0⟩ ⟨2 * 3, 2 * 4, 2 * 0⟩ =
      GetDecayPoint 1 ⟨0, 0, 0⟩ ⟨3, 4, 0⟩) :=
  ⟨by norm_num, by norm_num,
   getDecayPoint_normalizes_and_scale_invariant 1 2 ⟨0, 0, 0⟩ ⟨3, 4, 0⟩
     (by norm_num) (by norm_num)⟩

/-- C5: on positive rest-frame times and lifetime, the survival and decay
probabilities lie in `(0, 1]`, the combined reweighting factor exceeds `1`,
and the weight bookkeeping multiplies the prior event weight by that factor
rather than overwriting it. -/
theorem geomWeight_bounds_and_multiplicative (tB tI tau prior : ℝ)
    (htB : 0 < tB) (htI : 0 < tI) (htau : 0 < tau) :
    0 < survProb tB tau ∧ survProb tB tau ≤ 1 ∧
    0 < decayProb tI tau ∧ decayProb tI tau ≤ 1 ∧
    1 < geomWeight tB tI tau ∧
    applyGeomWeight prior tB tI tau = prior * geomWeight tB tI tau := by
  have hsB : Real.exp (-tB / tau) < 1 := by
    have hneg : -tB / tau < 0 := by
      rw [neg_div, neg_lt_zero]
      exact div_pos htB htau
    simpa using Real.exp_lt_exp.mpr hneg
  have hsI : Real.exp (-tI / tau) < 1 := by
    have hneg : -tI / tau < 0 := by
      rw [neg_div, neg_lt_zero]
      exact div_pos htI htau
    simpa using Real.exp_lt_exp.mpr hneg
  have hs0 : 0 < survProb tB tau := Real.exp_pos _
  have hs1 : survProb tB tau < 1 := hsB
  have hd0 : 0 < decayProb tI tau := by
    unfold decayProb; linarith
  have hd1 : decayProb tI tau < 1 := by
    unfold decayProb
    have := Real.exp_pos (-tI / tau)
    linarith
  refine ⟨hs0, hs1.le, hd0, hd1.le, ?_, ?_⟩
  · unfold geomWeight
    rw [div_mul_div_comm, one_mul]
    rw [one_lt_div (by positivity)]
    nlinarith
  · unfold applyGeomWeight geomWeight
    ring

/-- Witness for C5 at `tB = tI = tau = 1`, prior weight `2`. -/
theorem geomWeight_bounds_witness :
    (0 : ℝ) < 1 ∧ (0 : ℝ) < 1 ∧ (0 : ℝ) < 1 ∧
    (0 < survProb 1 1 ∧ survProb 1 1 ≤ 1 ∧
     0 < decayProb 1 1 ∧ decayProb 1 1 ≤ 1 ∧
     1 < geomWeight 1 1 1 ∧
     applyGeomWeight 2 1 1 1 = 2 * geomWeight 1 1 1) :=
  ⟨by norm_num, by norm_num, by norm_num,
   geomWeight_bounds_and_multiplicative 1 1 1 2 (by norm_num) (by norm_num)
     (by norm_num)⟩

/-- The sampled travel length as a closed formula: the log term times the
constant `τ·γ·β·c`. -/
lemma calcTravelLength_eq (β τ L c u : ℝ) :
    CalcTravelLength β τ L c u =
      Real.log (1 / ((1 - Real.exp (-(L / (β * c) /
          Real.sqrt (1 / (1 - β * β))) / τ)) * u +
        Real.exp (-(L / (β * c) / Real.sqrt (1 / (1 - β * β))) / τ))) *
      (τ * Real.sqrt (1 / (1 - β * β)) * β * c) := by
  unfold CalcTravelLength
  ring

/-- C6: under the claim's preconditions (`L > 0`, `τ > 0`, `β ∈ (0,1)`,
positive speed of light, draw `u ∈ [0,1)`), the sampled travel length lies
in `[0, L]`; at `u = 0` it equals exactly `L`, at `u = 1` it equals exactly
`0` (the value approached as `u → 1`), and it is strictly decreasing in the
draw. -/
theorem calcTravelLength_bounds (β τ L c : ℝ) (hβ0 : 0 < β) (hβ1 : β < 1)
    (hτ : 0 < τ) (hL : 0 < L) (hc : 0 < c) :
    (∀ u, 0 ≤ u → u < 1 →
      0 ≤ CalcTravelLength β τ L c u ∧ CalcTravelLength β τ L c u ≤ L) ∧
    CalcTravelLength β τ L c 0 = L ∧
    CalcTravelLength β τ L c 1 = 0 ∧
    (∀ u₁ u₂, 0 ≤ u₁ → u₁ < u₂ → u₂ ≤ 1 →
      CalcTravelLength β τ L c u₂ < CalcTravelLength β τ L c u₁) := by
  have hb2 : 0 < 1 - β * β := by nlinarith
  have hγ : 0 < Real.sqrt (1 / (1 - β * β)) := Real.sqrt_pos.mpr (by positivity)
  set γ := Real.sqrt (1 / (1 - β * β)) with hγdef
  have hmrt : 0 < L / (β * c) / γ := by positivity
  set mrt := L / (β * c) / γ with hmrtdef
  have hA0 : 0 < Real.exp (-mrt / τ) := Real.exp_pos _
  have hA1 : Real.exp (-mrt / τ) < 1 := by
    have hneg : -mrt / τ < 0 := by
      rw [neg_div, neg_lt_zero]
      exact div_pos hmrt hτ
    simpa using Real.exp_lt_exp.mpr hneg
  set A := Real.exp (-mrt / τ) with hAdef
  have hK : 0 < τ * γ * β * c := by positivity
  have hLK : Real.log (1 / A) * (τ * γ * β * c) = L := by
    have hinv : 1 / A = Real.exp (mrt / τ) := by
      rw [hAdef, one_div, ← Real.exp_neg, neg_div, neg_neg]
    rw [hinv, Real.log_exp, hmrtdef]
    field_simp
    exact Or.inl (by ring)
  have hrep : ∀ u, CalcTravelLength β τ L c u =
      Real.log (1 / ((1 - A) * u + A)) * (τ * γ * β * c) := by
    intro u
    rw [calcTravelLength_eq]
  have hS_pos : ∀ u, 0 ≤ u → 0 < (1 - A) * u + A := by
    intro u hu
    have : 0 ≤ (1 - A) * u := mul_nonneg (by linarith) hu
    linarith
  have hS_ge : ∀ u, 0 ≤ u → A ≤ (1 - A) * u + A := by
    intro u hu
    have : 0 ≤ (1 - A) * u := mul_nonneg (by linarith) hu
    linarith
  have hS_le1 : ∀ u, u ≤ 1 → (1 - A) * u + A ≤ 1 := by
    intro u hu
    nlinarith
  refine ⟨?_, ?_, ?_, ?_⟩
  · intro u hu0 hu1
    constructor
    · rw [hrep]
      have hlog : 0 ≤ Real.log (1 / ((1 - A) * u + A)) :=
        Real.log_nonneg ((one_le_div (hS_pos u hu0)).mpr (hS_le1 u hu1.le))
      exact mul_nonneg hlog hK.le
    · rw [hrep, ← hLK]
      have hdiv : 1 / ((1 - A) * u + A) ≤ 1 / A :=
        one_div_le_one_div_of_le hA0 (hS_ge u hu0)
      have hlog : Real.log (1 / ((1 - A) * u + A)) ≤ Real.log (1 / A) :=
        Real.log_le_log (one_div_pos.mpr (hS_pos u hu0)) hdiv
      exact mul_le_mul_of_nonneg_right hlog hK.le
  · rw [hrep, ← hLK]
    norm_num
  · rw [hrep]
    have h1 : (1 - A) * 1 + A = 1 := by ring
    rw [h1]
    norm_num
  · intro u₁ u₂ h0 h12 h21
    rw [hrep, hrep]
    have hlt : (1 - A) * u₁ + A < (1 - A) * u₂ + A := by nlinarith
    have hdiv : 1 / ((1 - A) * u₂ + A) < 1 / ((1 - A) * u₁ + A) :=
      one_div_lt_one_div_of_lt (hS_pos u₁ h0) hlt
    have hlog : Real.log (1 / ((1 - A) * u₂ + A)) <
        Real.log (1 / ((1 - A) * u₁ + A)) :=
      Real.log_lt_log (one_div_pos.mpr (hS_pos u₂ (h0.trans h12.le))) hdiv
    exact mul_lt_mul_of_pos_right hlog hK

/-- Witness for C6 at `β = 1/2`, `τ = 1`, `L = 1`, `c = 1`. -/
theorem calcTravelLength_bounds_witness :
    (0 : ℝ) < 1 / 2 ∧ (1 : ℝ) / 2 < 1 ∧
    ((∀ u, 0 ≤ u → u < 1 →
        0 ≤ CalcTravelLength (1 / 2) 1 1 1 u ∧
        CalcTravelLength (1 / 2) 1 1 1 u ≤ 1) ∧
     CalcTravelLength (1 / 2) 1 1 1 0 = 1 ∧
     CalcTravelLength (1 / 2) 1 1 1 1 = 0 ∧
     (∀ u₁ u₂, 0 ≤ u₁ → u₁ < u₂ → u₂ ≤ 1 →
        CalcTravelLength (1 / 2) 1 1 1 u₂ < CalcTravelLength (1 / 2) 1 1 1 u₁)) :=
  ⟨by norm_num, by norm_num,
   calcTravelLength_bounds (1 / 2) 1 1 1 (by norm_num) (by norm_num)
     (by norm_num) (by norm_num) (by norm_num)⟩

/-- The event record as seen by `ProcessEventRecord`: the accumulated weight
and the four-component vertex. -/
structure EventRec where
  weight : ℝ
  vertex : ℝ × ℝ × ℝ × ℝ

/-- The trajectory state threaded through the retry loop of
`ProcessEventRecord`: current start point, the momentum (set once, before
the loop, and never written inside it), the entry/exit out-parameters, the
intersection flag and the retry counter `trajIdx`. -/
structure TrajState where
  startPoint : Vec3
  momentum : Vec3
  entryP : Vec3
  exitP : Vec3
  didIntersect : Bool
  trajIdx : ℕ

/-- The retry loop `while(!didIntersectDet && trajIdx < trajMax)` of
`ProcessEventRecord`: each iteration draws a fresh production vertex from
the upstream `HNLDecayer` (`GenerateDecayPosition`, modelled as the stream
`sampler`), increments `trajIdx` and re-attempts the intersection; the
momentum member is left untouched.  `fuel` is `trajMax - trajIdx`. -/
def retryLoop (sampler : ℕ → Vec3)
    (intersect : Vec3 → Vec3 → Option (Vec3 × Vec3)) :
    ℕ → TrajState → TrajState
  | 0, st => st
  | fuel + 1, st =>
    if st.didIntersect then st
    else
      let st1 := { st with startPoint := sampler st.trajIdx,
                           trajIdx := st.trajIdx + 1 }
      match intersect st1.startPoint st1.momentum with
      | some ex =>
        retryLoop sampler intersect fuel
          { st1 with entryP := ex.1, exitP := ex.2, didIntersect := true }
      | none => retryLoop sampler intersect fuel st1

/-- The sentinel dummy vertex `TLorentzVector(-999.9, -999.9, -999.9,
-999.9)` written when no trajectory intersects the detector. -/
def sentinelVertex : ℝ × ℝ × ℝ × ℝ := (-999.9, -999.9, -999.9, -999.9)

/-- The retry budget `trajMax = 20`. -/
def trajMax : ℕ := 20

/-- Embeds `HNLDecayVolume::ProcessEventRecord` (non-dk2nu branch): attempt the
intersection from the configured start point, run the bounded retry loop on
failure, and either bail out writing the sentinel vertex (leaving the weight
alone) or compute the decay vertex and merge the geometric weight into the
event weight.  `intersect` abstracts `VolumeEntryAndExitPoints` (the ROOT
geometry oracle), `sampler` the upstream production-vertex sampler, `u` the
uniform draw, `c` the member `kNewSpeedOfLight`, `tau` the lifetime
`fCoMLifetime` (in ns), and `pMag`/`pE` the momentum magnitude and energy of
the HNL from which `betaMag = P/E` is formed. -/
def ProcessEventRecordModel (sampler : ℕ → Vec3)
    (intersect : Vec3 → Vec3 → Option (Vec3 × Vec3)) (S0 M : Vec3)
    (tau c u pMag pE : ℝ) (ev : EventRec) : EventRec :=
  let st0 : TrajState :=
    match intersect S0 M with
    | some ex => ⟨S0, M, ex.1, ex.2, true, 0⟩
    | none => ⟨S0, M, ⟨0, 0, 0⟩, ⟨0, 0, 0⟩, false, 0⟩
  let st := retryLoop sampler intersect trajMax st0
  if st.trajIdx = trajMax ∧ st.didIntersect = false then
    { ev with vertex := sentinelVertex }
  else
    let entry := st.entryP
    let ex := st.exitP
    let maxLength := Real.sqrt ((ex.x - entry.x) ^ 2 + (ex.y - entry.y) ^ 2 +
                                (ex.z - entry.z) ^ 2)
    let betaMag := pMag / pE
    let gamma := Real.sqrt (1 / (1 - betaMag * betaMag))
    let elapsed_length := CalcTravelLength betaMag tau maxLength c u
    let dBD := distanceBeforeDet entry st.startPoint
    let timeBeforeDet := dBD / (betaMag * c) * (1 / gamma)
    let timeInsideDet := maxLength / (betaMag * c) * (1 / gamma)
    let decayPoint := GetDecayPoint elapsed_length entry st.momentum
    { weight := applyGeomWeight ev.weight timeBeforeDet timeInsideDet tau,
      vertex := (decayPoint.x / 1000, decayPoint.y / 1000, decayPoint.z / 1000,
                 ev.vertex.2.2.2) }

/-- Behaviour of the retry loop while every intersection attempt with the
(unchanged) momentum fails: the flag stays down, the counter advances by the
fuel, the momentum is never rewritten, and the start point is the most
recently sampled production vertex. -/
lemma retryLoop_stuck (sampler : ℕ → Vec3)
    (intersect : Vec3 → Vec3 → Option (Vec3 × Vec3)) :
    ∀ (fuel : ℕ) (st : TrajState), st.didIntersect = false →
      (∀ s, intersect s st.momentum = none) →
      (retryLoop sampler intersect fuel st).didIntersect = false ∧
      (retryLoop sampler intersect fuel st).trajIdx = st.trajIdx + fuel ∧
      (retryLoop sampler intersect fuel st).momentum = st.momentum ∧
      ∀ g, fuel = g + 1 →
        (retryLoop sampler intersect fuel st).startPoint
          = sampler (st.trajIdx + g) := by
  intro fuel
  induction fuel with
  | zero =>
    intro st hdid _
    refine ⟨hdid, by simp [retryLoop], rfl, ?_⟩
    intro g hg
    exact absurd hg (by omega)
  | succ f ih =>
    intro st hdid hfail
    have hstep : retryLoop sampler intersect (f + 1) st
        = retryLoop sampler intersect f
            { st with startPoint := sampler st.trajIdx,
                      trajIdx := st.trajIdx + 1 } := by
      rw [retryLoop, if_neg (by simp [hdid])]
      simp only [hfail]
    rcases f with - | f
    · refine ⟨?_, ?_, ?_, ?_⟩ <;> rw [hstep]
      · exact hdid
      · simp [retryLoop]
      · rfl
      · intro g hg
        have hg0 : g = 0 := by omega
        subst hg0
        simp [retryLoop]
    · obtain ⟨ha, hb, hc, hd⟩ := ih
        { st with startPoint := sampler st.trajIdx, trajIdx := st.trajIdx + 1 }
        hdid (by intro s; exact hfail s)
      refine ⟨?_, ?_, ?_, ?_⟩ <;> rw [hstep]
      · exact ha
      · rw [hb]
        show st.trajIdx + 1 + (f + 1) = st.trajIdx + (f + 1 + 1)
        omega
      · exact hc
      · intro g hg
        rw [hd f rfl]
        show sampler (st.trajIdx + 1 + f) = sampler (st.trajIdx + g)
        have hfg : st.trajIdx + 1 + f = st.trajIdx + g := by omega
        rw [hfg]

/-- The momentum member is never written inside the retry loop, whatever the
oracles do. -/
lemma retryLoop_momentum (sampler : ℕ → Vec3)
    (intersect : Vec3 → Vec3 → Option (Vec3 × Vec3)) :
    ∀ (fuel : ℕ) (st : TrajState),
      (retryLoop sampler intersect fuel st).momentum = st.momentum := by
  intro fuel
  induction fuel with
  | zero => intro st; rfl
  | succ f ih =>
    intro st
    rw [retryLoop]
    by_cases hdid : st.didIntersect
    · rw [if_pos hdid]
    · rw [if_neg hdid]
      cases hx : intersect (sampler st.trajIdx)
          ({ st with startPoint := sampler st.trajIdx,
                     trajIdx := st.trajIdx + 1 } : TrajState).momentum with
      | none => simp only [hx]; exact ih _
      | some ex => simp only [hx]; exact ih _

/-- C4: when every intersection attempt fails, the orchestrator exhausts its
20-try retry budget, writes the sentinel vertex `(-999.9, -999.9, -999.9,
-999.9)` into the event record, and returns with the event's accumulated
weight exactly as it was before the query. -/
theorem processEventRecord_abort_sentinel (sampler : ℕ → Vec3)
    (intersect : Vec3 → Vec3 → Option (Vec3 × Vec3)) (S0 M : Vec3)
    (tau c u pMag pE : ℝ) (ev : EventRec)
    (hfail : ∀ s m, intersect s m = none) :
    (ProcessEventRecordModel sampler intersect S0 M tau c u pMag pE ev).vertex
      = sentinelVertex ∧
    (ProcessEventRecordModel sampler intersect S0 M tau c u pMag pE ev).weight
      = ev.weight := by
  have hst0 : (match intersect S0 M with
      | some ex => (⟨S0, M, ex.1, ex.2, true, 0⟩ : TrajState)
      | none => ⟨S0, M, ⟨0, 0, 0⟩, ⟨0, 0, 0⟩, false, 0⟩)
      = (⟨S0, M, ⟨0, 0, 0⟩, ⟨0, 0, 0⟩, false, 0⟩ : TrajState) := by
    rw [hfail S0 M]
  obtain ⟨ha, hb, -, -⟩ := retryLoop_stuck sampler intersect trajMax
    ⟨S0, M, ⟨0, 0, 0⟩, ⟨0, 0, 0⟩, false, 0⟩ rfl (fun s => hfail s M)
  have hcond : (retryLoop sampler intersect trajMax
      (⟨S0, M, ⟨0, 0, 0⟩, ⟨0, 0, 0⟩, false, 0⟩ : TrajState)).trajIdx = trajMax ∧
      (retryLoop sampler intersect trajMax
      (⟨S0, M, ⟨0, 0, 0⟩, ⟨0, 0, 0⟩, false, 0⟩ : TrajState)).didIntersect
        = false := ⟨by rw [hb]; simp, ha⟩
  constructor
  · unfold ProcessEventRecordModel
    rw [hst0, if_pos hcond]
  · unfold ProcessEventRecordModel
    rw [hst0, if_pos hcond]

/-- Witness for C4: an oracle that never intersects, a constant production
sampler, and a concrete event with weight `3`. -/
theorem processEventRecord_abort_sentinel_witness :
    (∀ s m : Vec3, (fun (_ : Vec3) (_ : Vec3) =>
        (none : Option (Vec3 × Vec3))) s m = none) ∧
    ((ProcessEventRecordModel (fun _ => ⟨0, 0, 0⟩)
        (fun _ _ => none) ⟨7, 7, 7⟩ ⟨1, 0, 0⟩ 1 1 0 1 2
        ⟨3, (0, 0, 0, 0)⟩).vertex = sentinelVertex ∧
     (ProcessEventRecordModel (fun _ => ⟨0, 0, 0⟩)
        (fun _ _ => none) ⟨7, 7, 7⟩ ⟨1, 0, 0⟩ 1 1 0 1 2
        ⟨3, (0, 0, 0, 0)⟩).weight = (3 : ℝ)) :=
  ⟨fun _ _ => rfl,
   processEventRecord_abort_sentinel (fun _ => ⟨0, 0, 0⟩) (fun _ _ => none)
     ⟨7, 7, 7⟩ ⟨1, 0, 0⟩ 1 1 0 1 2 ⟨3, (0, 0, 0, 0)⟩ (fun _ _ => rfl)⟩

/-- C8 (counterexample): with initial momentum `(1,0,0)`, a production
sampler that keeps yielding fresh vertices `(i,0,0)`, and a geometry that
intersects exactly the trajectories whose momentum has zero x component, the
retry loop fails all of its attempts: the momentum passed to every re-attempt
is still the original `(1,0,0)` — no fresh momentum direction is ever drawn —
even though the geometry accepts the direction `(0,1,0)` the upstream model
could have supplied. -/
theorem retryLoop_no_fresh_momentum_counterexample :
    (retryLoop (fun i => ⟨(i : ℝ), 0, 0⟩)
        (fun _ m => if m.x = 0 then some (⟨0, 0, 0⟩, ⟨0, 0, 0⟩) else none) 20
        ⟨⟨5, 5, 5⟩, ⟨1, 0, 0⟩, ⟨0, 0, 0⟩, ⟨0, 0, 0⟩, false, 0⟩).momentum
      = ⟨1, 0, 0⟩ ∧
    (retryLoop (fun i => ⟨(i : ℝ), 0, 0⟩)
        (fun _ m => if m.x = 0 then some (⟨0, 0, 0⟩, ⟨0, 0, 0⟩) else none) 20
        ⟨⟨5, 5, 5⟩, ⟨1, 0, 0⟩, ⟨0, 0, 0⟩, ⟨0, 0, 0⟩, false, 0⟩).didIntersect
      = false ∧
    ((fun (_ : Vec3) (m : Vec3) =>
        if m.x = 0 then some ((⟨0, 0, 0⟩ : Vec3), (⟨0, 0, 0⟩ : Vec3)) else none)
      ⟨0, 0, 0⟩ ⟨0, 1, 0⟩).isSome = true := by
  have hfail : ∀ s : Vec3,
      (fun (_ : Vec3) (m : Vec3) =>
        if m.x = 0 then some ((⟨0, 0, 0⟩ : Vec3), (⟨0, 0, 0⟩ : Vec3)) else none)
        s (⟨⟨5, 5, 5⟩, ⟨1, 0, 0⟩, ⟨0, 0, 0⟩, ⟨0, 0, 0⟩, false, 0⟩ :
            TrajState).momentum = none := by
    intro s
    norm_num
  obtain ⟨ha, -, hc, -⟩ := retryLoop_stuck (fun i => ⟨(i : ℝ), 0, 0⟩)
    (fun _ m => if m.x = 0 then some (⟨0, 0, 0⟩, ⟨0, 0, 0⟩) else none) 20
    ⟨⟨5, 5, 5⟩, ⟨1, 0, 0⟩, ⟨0, 0, 0⟩, ⟨0, 0, 0⟩, false, 0⟩ rfl hfail
  refine ⟨hc, ha, ?_⟩
  norm_num

/-- C8 (amended): on each iteration of the bounded retry loop the
orchestrator samples a fresh production vertex from the upstream production
model before re-attempting the intersection — after `fuel + 1` failing
iterations the trajectory's start point is the most recently drawn sample —
but the momentum direction is never resampled: the loop leaves the momentum
member exactly as it was when the loop was entered, whatever the oracles
do. -/
theorem retryLoop_fresh_vertex_stale_momentum (sampler : ℕ → Vec3)
    (intersect : Vec3 → Vec3 → Option (Vec3 × Vec3)) :
    (∀ (fuel : ℕ) (st : TrajState),
      (retryLoop sampler intersect fuel st).momentum = st.momentum) ∧
    (∀ (fuel : ℕ) (st : TrajState), st.didIntersect = false →
      (∀ s, intersect s st.momentum = none) →
      (retryLoop sampler intersect (fuel + 1) st).startPoint
        = sampler (st.trajIdx + fuel)) := by
  constructor
  · intro fuel st
    exact retryLoop_momentum sampler intersect fuel st
  · intro fuel st hdid hfail
    obtain ⟨-, -, -, hd⟩ :=
      retryLoop_stuck sampler intersect (fuel + 1) st hdid hfail
    exact hd fuel rfl

/-- Witness for the amended C8: with an always-failing oracle and the
sampler `i ↦ (i, 0, 0)`, after 20 iterations from a fresh state the start
point is the 20th sample `(19, 0, 0)` and the momentum is still the initial
`(1, 0, 0)`. -/
theorem retryLoop_fresh_vertex_stale_momentum_witness :
    (∀ s : Vec3, (fun (_ : Vec3) (_ : Vec3) => (none : Option (Vec3 × Vec3)))
        s (⟨⟨5, 5, 5⟩, ⟨1, 0, 0⟩, ⟨0, 0, 0⟩, ⟨0, 0, 0⟩, false, 0⟩ :
            TrajState).momentum = none) ∧
    (retryLoop (fun i => ⟨(i : ℝ), 0, 0⟩) (fun _ _ => none) 20
        ⟨⟨5, 5, 5⟩, ⟨1, 0, 0⟩, ⟨0, 0, 0⟩, ⟨0, 0, 0⟩, false, 0⟩).momentum
      = ⟨1, 0, 0⟩ ∧
    (retryLoop (fun i => ⟨(i : ℝ), 0, 0⟩) (fun _ _ => none) (19 + 1)
        ⟨⟨5, 5, 5⟩, ⟨1, 0, 0⟩, ⟨0, 0, 0⟩, ⟨0, 0, 0⟩, false, 0⟩).startPoint
      = ⟨((19 : ℕ) : ℝ), 0, 0⟩ := by
  refine ⟨fun _ => rfl, ?_, ?_⟩
  · exact (retryLoop_fresh_vertex_stale_momentum (fun i => ⟨(i : ℝ), 0, 0⟩)
      (fun _ _ => none)).1 20 _
  · exact (retryLoop_fresh_vertex_stale_momentum (fun i => ⟨(i : ℝ), 0, 0⟩)
      (fun _ _ => none)).2 19 _ rfl (fun _ => rfl)

/-- The iteration ceiling `bdIdxMax = 1e+4` of the stepping loop in
`VolumeEntryAndExitPoints`. -/
def bdIdxMax : ℕ := 10000

/-- The stepping loop
`while( gGeoManager->FindNextBoundaryAndStep() && bdIdx < bdIdxMax )` of
`VolumeEntryAndExitPoints`, abstracted over the geometry oracle: `oracle i`
tells whether the `i`-th `FindNextBoundaryAndStep` call reports a further
boundary (non-null node).  Returns the final `bdIdx`; the fuel argument is
`bdIdxMax - bdIdx`, so the loop body runs at most `bdIdxMax` times. -/
def steppingLoop (oracle : ℕ → Bool) : ℕ → ℕ → ℕ
  | bdIdx, 0 => bdIdx
  | bdIdx, fuel + 1 =>
    if oracle bdIdx then steppingLoop oracle (bdIdx + 1) fuel else bdIdx

/-- The exit-search outcome of `VolumeEntryAndExitPoints` after the entry
point was found: run the stepping loop; `if( bdIdx == bdIdxMax )` report
failure (`return false`, with a logged warning), otherwise proceed to record
the exit point and return `true`. -/
def volumeExitSearch (oracle : ℕ → Bool) : Bool :=
  let n := steppingLoop oracle 0 bdIdxMax
  if n = bdIdxMax then false else true

lemma steppingLoop_le (oracle : ℕ → Bool) :
    ∀ (fuel idx : ℕ), steppingLoop oracle idx fuel ≤ idx + fuel := by
  intro fuel
  induction fuel with
  | zero => intro idx; rw [steppingLoop]; omega
  | succ f ih =>
    intro idx
    rw [steppingLoop]
    by_cases h : oracle idx
    · rw [if_pos h]
      calc steppingLoop oracle (idx + 1) f ≤ idx + 1 + f := ih (idx + 1)
        _ = idx + (f + 1) := by omega
    · rw [if_neg h]
      omega

lemma steppingLoop_all_true (oracle : ℕ → Bool) :
    ∀ (fuel idx : ℕ), (∀ i, idx ≤ i → i < idx + fuel → oracle i = true) →
      steppingLoop oracle idx fuel = idx + fuel := by
  intro fuel
  induction fuel with
  | zero => intro idx _; rw [steppingLoop]; omega
  | succ f ih =>
    intro idx h
    rw [steppingLoop, if_pos (h idx (le_refl idx) (by omega))]
    rw [ih (idx + 1) (fun i h1 h2 => h i (by omega) (by omega))]
    omega

/-- C9: the stepping loop of the general intersector executes at most
`bdIdxMax = 10000` boundary steps for every oracle, and when the oracle
still reports further boundaries after the whole budget the search reports
`found = false` instead of crashing or looping forever. -/
theorem steppingLoop_budget (oracle : ℕ → Bool) :
    steppingLoop oracle 0 bdIdxMax ≤ bdIdxMax ∧
    ((∀ i, i < bdIdxMax → oracle i = true) → volumeExitSearch oracle = false) := by
  constructor
  · simpa using steppingLoop_le oracle bdIdxMax 0
  · intro h
    unfold volumeExitSearch
    have hn : steppingLoop oracle 0 bdIdxMax = 0 + bdIdxMax :=
      steppingLoop_all_true oracle bdIdxMax 0 (fun i _ h2 => h i (by omega))
    rw [hn]
    norm_num

/-- Witness for C9 with the oracle that always reports another boundary. -/
theorem steppingLoop_budget_witness :
    (∀ i, i < bdIdxMax → (fun (_ : ℕ) => true) i = true) ∧
    (steppingLoop (fun _ => true) 0 bdIdxMax ≤ bdIdxMax ∧
     volumeExitSearch (fun _ => true) = false) :=
  ⟨fun _ _ => rfl,
   ⟨(steppingLoop_budget (fun _ => true)).1,
    (steppingLoop_budget (fun _ => true)).2 (fun _ _ => rfl)⟩⟩

end HNLDecayVolume

end
